import Mathlib

/-!
Shallow embedding of `update_sit_status.py` (awarera/UpdateJiraFields).

The script talks to two external services (a Jenkins CI server and a Jira
issue tracker).  We model the environment as an oracle `Env` fixing the
outcome of each external call, and each Python function as a Lean function
returning the list of observable events (log lines and outgoing service
calls) together with its result, where `Except PyErr` models a Python
exception escaping the function.
-/

namespace UpdateSitStatus

/-- The part of the Jenkins `api/json` build descriptor the script reads:
`jenkins_data['displayName']` and `jenkins_data['result']`. -/
structure JenkinsData where
  displayName : String
  result : String
deriving DecidableEq

/-- Python exceptions that can escape the modelled functions:
`AssertionError` from `assert url.endswith('/')`, a `requests` error from
`requests.get`/`raise_for_status` (timeout, connection error, non-2xx),
and the `AttributeError` raised by calling `.search_issues` on `None`. -/
inductive PyErr where
  | assertionError : PyErr
  | requestError : String → PyErr
  | attributeError : PyErr
deriving DecidableEq

/-- Observable events of a run: log lines and outgoing calls to the two
external services. -/
inductive Event where
  | logInfo : String → Event
  | logError : String → Event
  | httpGet : String → Nat → Event
  | jiraLoginAttempt : String → String → String → Event
  | jiraSearch : String → Event
  | jiraUpdate : String → String → String → Event
deriving DecidableEq

/-- Oracle fixing the behaviour of the external services during one run:
the decoded outcome of the Jenkins GET (`Except.error` models a raised
`requests` error), whether `JIRA(...)` raises `JIRAError` (with its message),
and which issue keys each search query returns. -/
structure Env where
  jenkinsResponse : Except PyErr JenkinsData
  loginResult : Except String Unit
  searchResults : String → List String

/-- The four parsed command-line arguments (`self.args`). -/
structure Args where
  jenkins_url : String
  jira_url : String
  jira_user : String
  jira_passwd : String
deriving DecidableEq

/-- Python `url.endswith('/')`: the last character is a slash. -/
def endswithSlash (s : String) : Bool :=
  match s.data.getLast? with
  | some c => c = '/'
  | none => false

/-- Python `re.compile(r"^#\d*$").match(s)`: the string is a hash followed
by zero or more digits.  `$` in Python also matches just before a single
trailing newline, so one trailing newline is stripped first.  (Python's
`\d` also accepts non-ASCII decimal digits; the display names considered
here are ASCII, where `Char.isDigit` agrees.) -/
def build_number_pattern_match (s : String) : Bool :=
  let chars :=
    match s.data.getLast? with
    | some c => if c = '\x0a' then s.data.dropLast else s.data
    | none => s.data
  match chars with
  | '#' :: rest => rest.all Char.isDigit
  | _ => false

/-- `jenkins_query(url)`: asserts the trailing slash, logs, then issues an
HTTP GET against `{url}api/json` with timeout 60 and returns the decoded
JSON (or lets the `requests` error propagate). -/
def jenkins_query (env : Env) (url : String) :
    List Event × Except PyErr JenkinsData :=
  if endswithSlash url then
    ([Event.logInfo s!"Fetching Jenkins data from {url}",
      Event.httpGet s!"{url}api/json" 60],
     env.jenkinsResponse)
  else
    ([], Except.error PyErr.assertionError)

/-- `jira_login(self)`: constructs the JIRA client with basic auth; on
`JIRAError` logs the failure and falls through, returning Python `None`
(modelled as `Option.none`). -/
def jira_login (env : Env) (args : Args) : List Event × Option Unit :=
  match env.loginResult with
  | Except.ok _ =>
      ([Event.jiraLoginAttempt args.jira_url args.jira_user args.jira_passwd,
        Event.logInfo "Successfully logged into jira"],
       some ())
  | Except.error err =>
      ([Event.jiraLoginAttempt args.jira_url args.jira_user args.jira_passwd,
        Event.logError s!"Login to JIRA failed because {err}"],
       none)

/-- The JQL query string built in `update_jira_status`. -/
def jqlQuery (release_name : String) (customfield_number : Nat) : String :=
  s!"fixVersion={release_name} AND cf[{customfield_number}]=\"Pending automated test\""

/-- `update_jira_status(self, release_name, customfield_number, new_value)`:
logs, logs in to Jira, searches, and updates every returned issue.  If
`jira_login` returned `None`, the attribute access `None.search_issues`
raises `AttributeError` before any search happens. -/
def update_jira_status (env : Env) (args : Args) (release_name : String)
    (customfield_number : Nat) (new_value : String) :
    List Event × Except PyErr Unit :=
  let searchLog := [Event.logInfo "Searching for Jira issues..."]
  let login := jira_login env args
  match login.2 with
  | none => (searchLog ++ login.1, Except.error PyErr.attributeError)
  | some _ =>
      let query := jqlQuery release_name customfield_number
      let issues := env.searchResults query
      let n := issues.length
      if issues = [] then
        (searchLog ++ login.1 ++
           [Event.jiraSearch query,
            Event.logInfo s!"No issues found in release: {release_name}"],
         Except.ok ())
      else
        (searchLog ++ login.1 ++
           [Event.jiraSearch query,
            Event.logInfo s!"Updating {n} Jira issues to Success (automated regression test)"] ++
           issues.map (fun key =>
             Event.jiraUpdate key s!"customfield_{customfield_number}" new_value) ++
           [Event.logInfo s!"{n} Jira issues were updated"],
         Except.ok ())

/-- `task1_check_jenkins_release(self)`: fetches the last Jenkins build,
classifies its display name, and when the build is a labelled success,
runs `update_jira_status` with the hard-coded field `10803` and target
value. -/
def task1_check_jenkins_release (env : Env) (args : Args) :
    List Event × Except PyErr Unit :=
  let fetch := jenkins_query env args.jenkins_url
  match fetch.2 with
  | Except.error e => (fetch.1, Except.error e)
  | Except.ok jenkins_data =>
      let build_display_name := jenkins_data.displayName
      if build_number_pattern_match build_display_name then
        (fetch.1 ++
           [Event.logInfo s!"{build_display_name} is an unlabelled release. Nothing to do"],
         Except.ok ())
      else
        if jenkins_data.result = "SUCCESS" then
          let upd := update_jira_status env args build_display_name 10803
            "Success (automated regression test)"
          (fetch.1 ++ upd.1, upd.2)
        else
          (fetch.1 ++
             [Event.logError s!"Labelled release: {build_display_name} failed. Nothing to do"],
           Except.ok ())

/-- True for events that are calls to the issue tracker (login, search or
update), false for log lines and CI calls. -/
def isTrackerEvent : Event → Bool
  | Event.jiraLoginAttempt _ _ _ => true
  | Event.jiraSearch _ => true
  | Event.jiraUpdate _ _ _ => true
  | _ => false

/-- True for search and field-update calls to the issue tracker. -/
def isSearchOrUpdate : Event → Bool
  | Event.jiraSearch _ => true
  | Event.jiraUpdate _ _ _ => true
  | _ => false

/-- True exactly for field-update calls to the issue tracker. -/
def isUpdateEvent : Event → Bool
  | Event.jiraUpdate _ _ _ => true
  | _ => false

/-- One `add_argument` call of `JiraStatusUpdater.__init__`: the option
flag and the environment variable supplying its default. -/
structure ArgOption where
  flag : String
  envVar : String
deriving DecidableEq

/-- The four options registered in `JiraStatusUpdater.__init__`, each with
`default=os.getenv(...)`. -/
def argumentOptions : List ArgOption :=
  [⟨"--jenkins_url", "JENKINS_URL"⟩,
   ⟨"--jira_url", "JIRA_URL"⟩,
   ⟨"--jira_user", "JIRA_USER"⟩,
   ⟨"--jira_passwd", "JIRA_PASSWD"⟩]

/-- argparse resolution of one option: the command-line value when supplied,
otherwise its registered default `os.getenv(envVar)`. -/
def resolveOption (getenv : String → Option String)
    (cmdline : List (String × String)) (opt : ArgOption) : Option String :=
  match cmdline.lookup opt.flag with
  | some v => some v
  | none => getenv opt.envVar

/-! Concrete environments used to witness the theorems. -/

/-- Concrete argument set for witnesses. -/
def argsA : Args :=
  ⟨"http://jenkins.example/job/rel/", "http://jira.example", "bot", "secret"⟩

/-- A run where the build is the labelled success `Release-2.3`, login
succeeds, and the search returns two issues. -/
def envGood : Env :=
  ⟨Except.ok ⟨"Release-2.3", "SUCCESS"⟩, Except.ok (),
   fun _ => ["ECS2-2087", "ECS2-2090"]⟩

/-- Like `envGood` but every search comes back empty. -/
def envGoodEmpty : Env :=
  ⟨Except.ok ⟨"Release-2.3", "SUCCESS"⟩, Except.ok (), fun _ => []⟩

/-- A run where Jira authentication raises `JIRAError`. -/
def envLoginFail : Env :=
  ⟨Except.ok ⟨"Release-2.3", "SUCCESS"⟩, Except.error "CAPTCHA required",
   fun _ => ["ECS2-2087"]⟩

/-- A run where the Jenkins GET fails (e.g. a 404 from `raise_for_status`). -/
def envFetchFail : Env :=
  ⟨Except.error (PyErr.requestError "404 Client Error"), Except.ok (),
   fun _ => ["ECS2-2087"]⟩

/-- A run whose latest build is unlabelled (`#12`) and search would return
issues, so any tracker call would be visible in the trace. -/
def envUnlabelled : Env :=
  ⟨Except.ok ⟨"#12", "SUCCESS"⟩, Except.ok (), fun _ => ["ECS2-2087"]⟩

/-- A run whose latest build is the labelled failure `Release-2.4`. -/
def envFailedBuild : Env :=
  ⟨Except.ok ⟨"Release-2.4", "FAILURE"⟩, Except.ok (), fun _ => ["ECS2-2087"]⟩

/-- A run whose latest build has the bare display name `#`. -/
def envHashOnly : Env :=
  ⟨Except.ok ⟨"#", "SUCCESS"⟩, Except.ok (), fun _ => ["ECS2-2087"]⟩

/-! Helper lemmas shared by the claim theorems. -/

/-- The CI fetch emits no issue-tracker events, whatever its outcome. -/
theorem jenkins_query_no_tracker (env : Env) (url : String) :
    ((jenkins_query env url).1).all (fun e => !(isTrackerEvent e)) = true := by
  unfold jenkins_query
  split <;> simp [isTrackerEvent]

/-- C3: a build whose display name matches the unlabelled pattern
`^#<digits>$` is logged as unlabelled, the run ends normally, and no
issue-tracker call of any kind appears in the trace. -/
theorem unlabelled_build_skipped (env : Env) (args : Args) (jd : JenkinsData)
    (hfetch : env.jenkinsResponse = Except.ok jd)
    (hslash : endswithSlash args.jenkins_url = true)
    (hname : build_number_pattern_match jd.displayName = true) :
    let run := task1_check_jenkins_release env args
    let name := jd.displayName
    Event.logInfo s!"{name} is an unlabelled release. Nothing to do" ∈ run.1 ∧
    run.1.all (fun e => !(isTrackerEvent e)) = true ∧
    run.2 = Except.ok () := by
  simp only [task1_check_jenkins_release, jenkins_query, hslash, if_true, hfetch, hname]
  simp [isTrackerEvent]

/-- C3 witness: the concrete unlabelled build `#12`. -/
theorem unlabelled_build_skipped_witness :
    let run := task1_check_jenkins_release envUnlabelled argsA
    Event.logInfo "#12 is an unlabelled release. Nothing to do" ∈ run.1 ∧
    run.1.all (fun e => !(isTrackerEvent e)) = true ∧
    run.2 = Except.ok () :=
  unlabelled_build_skipped envUnlabelled argsA ⟨"#12", "SUCCESS"⟩
    rfl (by decide) (by decide)

/-- C9: the bare display name `#` (zero digits after the hash) matches the
classification regex, so the run takes the unlabelled no-action branch and
issues no tracker calls. -/
theorem hash_only_build_unlabelled :
    build_number_pattern_match "#" = true ∧
    (Event.logInfo "# is an unlabelled release. Nothing to do" ∈
       (task1_check_jenkins_release envHashOnly argsA).1 ∧
     ((task1_check_jenkins_release envHashOnly argsA).1).all
       (fun e => !(isTrackerEvent e)) = true) := by
  decide

/-- C4: a labelled build whose result is not SUCCESS is logged as an error
and causes no issue-tracker calls; conversely, any issue-tracker call in a
run's trace means the build was labelled and its result was SUCCESS. -/
theorem labelled_failure_no_calls :
    (∀ (env : Env) (args : Args) (jd : JenkinsData),
       env.jenkinsResponse = Except.ok jd →
       endswithSlash args.jenkins_url = true →
       build_number_pattern_match jd.displayName = false →
       jd.result ≠ "SUCCESS" →
       let run := task1_check_jenkins_release env args
       let name := jd.displayName
       Event.logError s!"Labelled release: {name} failed. Nothing to do" ∈ run.1 ∧
       run.1.all (fun e => !(isTrackerEvent e)) = true) ∧
    (∀ (env : Env) (args : Args) (jd : JenkinsData),
       env.jenkinsResponse = Except.ok jd →
       (∃ e ∈ (task1_check_jenkins_release env args).1, isTrackerEvent e = true) →
       build_number_pattern_match jd.displayName = false ∧
       jd.result = "SUCCESS") := by
  constructor
  · intro env args jd hfetch hslash hname hres
    simp only [task1_check_jenkins_release, jenkins_query, hslash, if_true, hfetch,
      hname, if_neg hres]
    simp [isTrackerEvent]
  · intro env args jd hfetch hcall
    by_cases hslash : endswithSlash args.jenkins_url = true
    · simp only [task1_check_jenkins_release, jenkins_query, hslash, if_true,
        hfetch] at hcall
      by_cases hname : build_number_pattern_match jd.displayName = true
      · simp [hname, isTrackerEvent] at hcall
      · by_cases hres : jd.result = "SUCCESS"
        · exact ⟨Bool.eq_false_iff.mpr hname, hres⟩
        · simp [hname, hres, isTrackerEvent] at hcall
    · simp only [Bool.not_eq_true] at hslash
      simp only [task1_check_jenkins_release, jenkins_query, hslash] at hcall
      simp at hcall

/-- C4 witness: the labelled failed build `Release-2.4` takes the error
branch, and the successful run on `envGood` does issue tracker calls. -/
theorem labelled_failure_no_calls_witness :
    (Event.logError "Labelled release: Release-2.4 failed. Nothing to do" ∈
       (task1_check_jenkins_release envFailedBuild argsA).1 ∧
     ((task1_check_jenkins_release envFailedBuild argsA).1).all
       (fun e => !(isTrackerEvent e)) = true) ∧
    (build_number_pattern_match "Release-2.3" = false ∧
     "SUCCESS" = "SUCCESS") :=
  ⟨labelled_failure_no_calls.1 envFailedBuild argsA ⟨"Release-2.4", "FAILURE"⟩
     rfl (by decide) (by decide) (by decide),
   labelled_failure_no_calls.2 envGood argsA ⟨"Release-2.3", "SUCCESS"⟩
     rfl (by decide)⟩

/-- C5: whenever the CI fetch raises (assertion failure, timeout,
connection error or non-2xx via `raise_for_status`), the error escapes the
whole run uncaught, and the trace contains no issue-tracker call. -/
theorem ci_fetch_error_propagates (env : Env) (args : Args) (e : PyErr)
    (herr : (jenkins_query env args.jenkins_url).2 = Except.error e) :
    (task1_check_jenkins_release env args).2 = Except.error e ∧
    ((task1_check_jenkins_release env args).1).all
      (fun ev => !(isTrackerEvent ev)) = true := by
  have h1 := jenkins_query_no_tracker env args.jenkins_url
  simp only [task1_check_jenkins_release, herr]
  exact ⟨trivial, h1⟩

/-- C5 witness: a 404 from the Jenkins endpoint. -/
theorem ci_fetch_error_propagates_witness :
    (task1_check_jenkins_release envFetchFail argsA).2 =
      Except.error (PyErr.requestError "404 Client Error") ∧
    ((task1_check_jenkins_release envFetchFail argsA).1).all
      (fun ev => !(isTrackerEvent ev)) = true :=
  ci_fetch_error_propagates envFetchFail argsA
    (PyErr.requestError "404 Client Error") rfl

/-- C7: with a trailing slash, `jenkins_query` issues the GET against
`{url}api/json` with the fixed timeout 60; without one, it fails with an
assertion error before issuing any request or log. -/
theorem jenkins_query_contract :
    (∀ (env : Env) (url : String), endswithSlash url = true →
       Event.httpGet s!"{url}api/json" 60 ∈ (jenkins_query env url).1) ∧
    (∀ (env : Env) (url : String), endswithSlash url = false →
       jenkins_query env url = ([], Except.error PyErr.assertionError)) := by
  constructor
  · intro env url h
    simp [jenkins_query, h]
  · intro env url h
    simp [jenkins_query, h]

/-- C7 witness: a slash-terminated URL is queried, a bare one trips the
assertion. -/
theorem jenkins_query_contract_witness :
    Event.httpGet "http://jenkins.example/job/rel/api/json" 60 ∈
      (jenkins_query envGood "http://jenkins.example/job/rel/").1 ∧
    jenkins_query envGood "http://jenkins.example/job/rel" =
      ([], Except.error PyErr.assertionError) :=
  ⟨jenkins_query_contract.1 envGood "http://jenkins.example/job/rel/" (by decide),
   jenkins_query_contract.2 envGood "http://jenkins.example/job/rel" (by decide)⟩

/-- C8: each of the four CLI options falls back to its corresponding
environment variable when absent from the command line. -/
theorem cli_options_default_to_env (getenv : String → Option String)
    (cmdline : List (String × String))
    (h : ∀ o ∈ argumentOptions, cmdline.lookup o.flag = none) :
    argumentOptions.map (resolveOption getenv cmdline) =
      [getenv "JENKINS_URL", getenv "JIRA_URL",
       getenv "JIRA_USER", getenv "JIRA_PASSWD"] := by
  have h1 := h ⟨"--jenkins_url", "JENKINS_URL"⟩ (by simp [argumentOptions])
  have h2 := h ⟨"--jira_url", "JIRA_URL"⟩ (by simp [argumentOptions])
  have h3 := h ⟨"--jira_user", "JIRA_USER"⟩ (by simp [argumentOptions])
  have h4 := h ⟨"--jira_passwd", "JIRA_PASSWD"⟩ (by simp [argumentOptions])
  simp [argumentOptions, resolveOption, h1, h2, h3, h4]

/-- C8 witness: with an empty command line, each option resolves to the
value of its environment variable. -/
theorem cli_options_default_to_env_witness :
    argumentOptions.map (resolveOption (fun v => some v) []) =
      [some "JENKINS_URL", some "JIRA_URL",
       some "JIRA_USER", some "JIRA_PASSWD"] :=
  cli_options_default_to_env (fun v => some v) [] (by decide)

/-- C1: for a labelled successful build, a search with the release filter
and the pending-status sentinel is issued, every returned issue gets a
field-update call with the target value, and the logged count is the
number of returned issues. -/
theorem successful_release_sync (env : Env) (args : Args) (jd : JenkinsData)
    (hfetch : env.jenkinsResponse = Except.ok jd)
    (hslash : endswithSlash args.jenkins_url = true)
    (hname : build_number_pattern_match jd.displayName = false)
    (hres : jd.result = "SUCCESS")
    (hlogin : env.loginResult = Except.ok ()) :
    let run := task1_check_jenkins_release env args
    let q := jqlQuery jd.displayName 10803
    let issues := env.searchResults q
    let n := issues.length
    Event.jiraSearch q ∈ run.1 ∧
    (∀ key ∈ issues,
      Event.jiraUpdate key "customfield_10803"
        "Success (automated regression test)" ∈ run.1) ∧
    (issues ≠ [] →
      Event.logInfo
        s!"Updating {n} Jira issues to Success (automated regression test)" ∈
        run.1) := by
  have hcf : (s!"customfield_{(10803 : Nat)}") = "customfield_10803" := rfl
  by_cases hi : env.searchResults (jqlQuery jd.displayName 10803) = []
  · simp only [task1_check_jenkins_release, jenkins_query, hslash, if_true,
      hfetch, hname, Bool.false_eq_true, if_false, hres, if_true,
      update_jira_status, jira_login, hlogin, hi]
    simp [hi]
  · simp only [task1_check_jenkins_release, jenkins_query, hslash, if_true,
      hfetch, hname, Bool.false_eq_true, if_false, hres, if_true,
      update_jira_status, jira_login, hlogin, hcf, if_neg hi]
    refine ⟨by simp, fun key hkey => ?_, fun hne => by simp⟩
    have hmap : Event.jiraUpdate key "customfield_10803"
        "Success (automated regression test)" ∈
        (env.searchResults (jqlQuery jd.displayName 10803)).map
          (fun k2 => Event.jiraUpdate k2 "customfield_10803"
            "Success (automated regression test)") :=
      List.mem_map_of_mem _ hkey
    exact List.mem_append_right _ (List.mem_append_left _
      (List.mem_append_right _ hmap))

/-- C1 witness: the labelled success `Release-2.3` with two returned
issues. -/
theorem successful_release_sync_witness :
    let run := task1_check_jenkins_release envGood argsA
    let q := jqlQuery "Release-2.3" 10803
    Event.jiraSearch q ∈ run.1 ∧
    (∀ key ∈ ["ECS2-2087", "ECS2-2090"],
      Event.jiraUpdate key "customfield_10803"
        "Success (automated regression test)" ∈ run.1) ∧
    (["ECS2-2087", "ECS2-2090"] ≠ ([] : List String) →
      Event.logInfo
        "Updating 2 Jira issues to Success (automated regression test)" ∈
        run.1) :=
  successful_release_sync envGood argsA ⟨"Release-2.3", "SUCCESS"⟩
    rfl (by decide) (by decide) rfl rfl

/-- C6: when the search returns zero issues, a no-issues notice is logged,
no field-update call is issued, and the run ends normally. -/
theorem no_issues_found_noop (env : Env) (args : Args) (jd : JenkinsData)
    (hfetch : env.jenkinsResponse = Except.ok jd)
    (hslash : endswithSlash args.jenkins_url = true)
    (hname : build_number_pattern_match jd.displayName = false)
    (hres : jd.result = "SUCCESS")
    (hlogin : env.loginResult = Except.ok ())
    (hempty : env.searchResults (jqlQuery jd.displayName 10803) = []) :
    let run := task1_check_jenkins_release env args
    let name := jd.displayName
    Event.logInfo s!"No issues found in release: {name}" ∈ run.1 ∧
    run.1.all (fun e => !(isUpdateEvent e)) = true ∧
    run.2 = Except.ok () := by
  simp only [task1_check_jenkins_release, jenkins_query, hslash, if_true,
    hfetch, hname, Bool.false_eq_true, if_false, hres, if_true,
    update_jira_status, jira_login, hlogin, hempty]
  simp [isUpdateEvent]

/-- C6 witness: the labelled success `Release-2.3` with an empty search
result. -/
theorem no_issues_found_noop_witness :
    let run := task1_check_jenkins_release envGoodEmpty argsA
    Event.logInfo "No issues found in release: Release-2.3" ∈ run.1 ∧
    run.1.all (fun e => !(isUpdateEvent e)) = true ∧
    run.2 = Except.ok () :=
  no_issues_found_noop envGoodEmpty argsA ⟨"Release-2.3", "SUCCESS"⟩
    rfl (by decide) (by decide) rfl rfl rfl

/-- C2 counterexample: in a run where Jira authentication fails, an
`AttributeError` (from calling `.search_issues` on the `None` returned by
`jira_login`) escapes the whole run, so it is not true that no exception
escapes to the caller. -/
theorem auth_failure_exception_escapes :
    (task1_check_jenkins_release envLoginFail argsA).2 =
      Except.error PyErr.attributeError := rfl

/-- C2 amended: when authentication fails, the `JIRAError` is caught and an
error is logged, and no search or field-update call is ever issued; but the
run does not continue to completion: the subsequent attribute access on the
absent client raises an `AttributeError` that escapes to the caller. -/
theorem auth_failure_caught_logged (env : Env) (args : Args)
    (jd : JenkinsData) (err : String)
    (hfetch : env.jenkinsResponse = Except.ok jd)
    (hslash : endswithSlash args.jenkins_url = true)
    (hname : build_number_pattern_match jd.displayName = false)
    (hres : jd.result = "SUCCESS")
    (hlogin : env.loginResult = Except.error err) :
    let run := task1_check_jenkins_release env args
    Event.logError s!"Login to JIRA failed because {err}" ∈ run.1 ∧
    run.1.all (fun e => !(isSearchOrUpdate e)) = true ∧
    run.2 = Except.error PyErr.attributeError := by
  simp only [task1_check_jenkins_release, jenkins_query, hslash, if_true,
    hfetch, hname, Bool.false_eq_true, if_false, hres, if_true,
    update_jira_status, jira_login, hlogin]
  simp [isSearchOrUpdate]

/-- C2 amended witness: authentication failing with a concrete message on
the labelled success `Release-2.3`. -/
theorem auth_failure_caught_logged_witness :
    let run := task1_check_jenkins_release envLoginFail argsA
    Event.logError "Login to JIRA failed because CAPTCHA required" ∈ run.1 ∧
    run.1.all (fun e => !(isSearchOrUpdate e)) = true ∧
    run.2 = Except.error PyErr.attributeError :=
  auth_failure_caught_logged envLoginFail argsA ⟨"Release-2.3", "SUCCESS"⟩
    "CAPTCHA required" rfl (by decide) (by decide) rfl rfl

/-- C10: every field-update call in any run uses the hard-coded custom
field `customfield_10803` and the hard-coded target value, and every
search query is the fixed JQL over field 10803 for the build's display
name — neither is configurable through the arguments. -/
theorem hardcoded_field_and_value :
    (∀ (env : Env) (args : Args) (k f v : String),
       Event.jiraUpdate k f v ∈ (task1_check_jenkins_release env args).1 →
       f = "customfield_10803" ∧
       v = "Success (automated regression test)") ∧
    (∀ (env : Env) (args : Args) (q : String),
       Event.jiraSearch q ∈ (task1_check_jenkins_release env args).1 →
       ∃ jd, env.jenkinsResponse = Except.ok jd ∧
         q = jqlQuery jd.displayName 10803) := by
  have hcf : (s!"customfield_{(10803 : Nat)}") = "customfield_10803" := rfl
  constructor
  · intro env args k f v hmem
    by_cases hslash : endswithSlash args.jenkins_url = true
    · cases hjr : env.jenkinsResponse with
      | error e =>
          simp only [task1_check_jenkins_release, jenkins_query, hslash,
            if_true, hjr] at hmem
          simp at hmem
      | ok jd =>
          simp only [task1_check_jenkins_release, jenkins_query, hslash,
            if_true, hjr] at hmem
          by_cases hname : build_number_pattern_match jd.displayName = true
          · simp [hname] at hmem
          · by_cases hres : jd.result = "SUCCESS"
            · cases hlog : env.loginResult with
              | error err =>
                  simp [hname, hres, update_jira_status, jira_login,
                    hlog] at hmem
              | ok u =>
                  by_cases hi :
                      env.searchResults (jqlQuery jd.displayName 10803) = []
                  · simp [hname, hres, update_jira_status, jira_login,
                      hlog, hi] at hmem
                  · simp only [hname, Bool.false_eq_true, if_false, hres,
                      if_true, update_jira_status, jira_login, hlog, hcf,
                      if_neg hi] at hmem
                    simp only [List.mem_append, List.mem_map,
                      List.mem_singleton, List.mem_cons] at hmem
                    simp at hmem
                    obtain ⟨a, ha, h1, h2, h3⟩ := hmem
                    exact ⟨h2.symm, h3.symm⟩
            · simp [hname, hres] at hmem
    · simp only [Bool.not_eq_true] at hslash
      simp only [task1_check_jenkins_release, jenkins_query, hslash] at hmem
      simp at hmem
  · intro env args q hmem
    by_cases hslash : endswithSlash args.jenkins_url = true
    · cases hjr : env.jenkinsResponse with
      | error e =>
          simp only [task1_check_jenkins_release, jenkins_query, hslash,
            if_true, hjr] at hmem
          simp at hmem
      | ok jd =>
          simp only [task1_check_jenkins_release, jenkins_query, hslash,
            if_true, hjr] at hmem
          by_cases hname : build_number_pattern_match jd.displayName = true
          · simp [hname] at hmem
          · by_cases hres : jd.result = "SUCCESS"
            · cases hlog : env.loginResult with
              | error err =>
                  simp [hname, hres, update_jira_status, jira_login,
                    hlog] at hmem
              | ok u =>
                  by_cases hi :
                      env.searchResults (jqlQuery jd.displayName 10803) = []
                  · simp [hname, hres, update_jira_status, jira_login,
                      hlog, hi] at hmem
                    exact ⟨jd, rfl, hmem⟩
                  · simp only [hname, Bool.false_eq_true, if_false, hres,
                      if_true, update_jira_status, jira_login, hlog,
                      if_neg hi] at hmem
                    simp at hmem
                    exact ⟨jd, rfl, hmem⟩
            · simp [hname, hres] at hmem
    · simp only [Bool.not_eq_true] at hslash
      simp only [task1_check_jenkins_release, jenkins_query, hslash] at hmem
      simp at hmem

/-- C10 witness: on the concrete successful run, the update call on issue
`ECS2-2087` carries the hard-coded field and value, and the one search
query is the fixed JQL for `Release-2.3`. -/
theorem hardcoded_field_and_value_witness :
    ("customfield_10803" = "customfield_10803" ∧
     "Success (automated regression test)" =
       "Success (automated regression test)") ∧
    ∃ jd, envGood.jenkinsResponse = Except.ok jd ∧
      jqlQuery "Release-2.3" 10803 = jqlQuery jd.displayName 10803 :=
  ⟨hardcoded_field_and_value.1 envGood argsA "ECS2-2087" "customfield_10803"
     "Success (automated regression test)" (by decide),
   hardcoded_field_and_value.2 envGood argsA (jqlQuery "Release-2.3" 10803)
     (by decide)⟩

end UpdateSitStatus
